import Mathlib

/-!
Verification development for the Dengo backend (dengue-risk dashboard).

Shallow embedding of the prediction/fallback decision engine and the
resilient data-sourcing services, translated from the Python sources under
src/backend/app.  Python ints are modelled by ℤ/ℕ, Python floats by exact
rationals ℚ (float rounding error is not modelled; all claims settled here
are robust to it), Python exceptions by Except/error values, and external
effects (HTTP calls, Redis cache, the opaque Keras model, the random
generator, the wall clock) by explicit parameters enumerating the outcomes
the code distinguishes.
-/

namespace Dengo

/-- Python `int(q)` on a rational value: truncation toward zero. -/
def pyInt (q : ℚ) : ℤ := if q < 0 then ⌈q⌉ else ⌊q⌋

/-- Python `round` to an integer: round-half-to-even. -/
def roundHalfEven (q : ℚ) : ℤ :=
  let f := ⌊q⌋
  if q - f < 1/2 then f
  else if 1/2 < q - f then f + 1
  else if f % 2 = 0 then f else f + 1

/-- Python `round(q, ndigits)` for `ndigits ≥ 0`. -/
def pyRound (ndigits : ℕ) (q : ℚ) : ℚ :=
  (roundHalfEven (q * 10 ^ ndigits) : ℚ) / 10 ^ ndigits

/-- Last `n` elements of a list: pandas `DataFrame.tail(n)` on a list of rows. -/
def lastN (n : ℕ) (l : List α) : List α := l.drop (l.length - n)

/-!
PredictionService (src/backend/app/services/prediction_service.py)
-/

/-- Result dict of `PredictionService.predict` / `_get_fallback_prediction`
(the keys every strategy fills). -/
structure PredictionOutput where
  casos_estimados : ℤ
  nivel_risco : String
  confianca : ℚ
  tendencia : String
  fonte : String
deriving DecidableEq

/-- PredictionService._classify_risk_level (prediction_service.py:295-318). -/
def classify_risk_level (casos : ℤ) : String :=
  if casos < 50 then "baixo"
  else if casos < 150 then "moderado"
  else if casos < 300 then "alto"
  else "muito_alto"

/-- Ordinal position of a risk label in the ordered scale
baixo < moderado < alto < muito_alto (used to state monotonicity). -/
def riskRank (s : String) : ℕ :=
  if s = "baixo" then 0
  else if s = "moderado" then 1
  else if s = "alto" then 2
  else 3

/-- Base estimate of `_get_fallback_prediction`, step 1
(prediction_service.py:372-381): mean of the last two weekly counts when
both are positive, else whichever is positive, else the default 10. -/
def media_recente (casos_semana_anterior casos_2sem_anterior : ℤ) : ℚ :=
  if 0 < casos_semana_anterior ∧ 0 < casos_2sem_anterior then
    ((casos_semana_anterior + casos_2sem_anterior : ℤ) : ℚ) / 2
  else if 0 < casos_semana_anterior then (casos_semana_anterior : ℚ)
  else if 0 < casos_2sem_anterior then (casos_2sem_anterior : ℚ)
  else 10

/-- Climate multiplier of `_get_fallback_prediction`, step 2
(prediction_service.py:389-396). -/
def fator_temperatura (temperatura_media : ℚ) : ℚ :=
  if 25 ≤ temperatura_media ∧ temperatura_media ≤ 30 then 13/10
  else if 30 < temperatura_media then 11/10
  else if 20 ≤ temperatura_media then 1
  else 7/10

/-- Trend multiplier of `_get_fallback_prediction`, step 3
(prediction_service.py:401-414). -/
def fator_tendencia (casos_semana_anterior casos_2sem_anterior : ℤ) : ℚ :=
  if 0 < casos_2sem_anterior then
    let variacao : ℚ :=
      ((casos_semana_anterior - casos_2sem_anterior : ℤ) : ℚ) /
        (casos_2sem_anterior : ℚ)
    if 1/5 < variacao then 6/5
    else if variacao < -(1/5) then 4/5
    else 1
  else 1

/-- Trend label computed alongside `fator_tendencia` in the same if-chain
(prediction_service.py:401-414). -/
def tendencia_fallback (casos_semana_anterior casos_2sem_anterior : ℤ) : String :=
  if 0 < casos_2sem_anterior then
    let variacao : ℚ :=
      ((casos_semana_anterior - casos_2sem_anterior : ℤ) : ℚ) /
        (casos_2sem_anterior : ℚ)
    if 1/5 < variacao then "subindo"
    else if variacao < -(1/5) then "caindo"
    else "estavel"
  else "estavel"

/-- PredictionService._get_fallback_prediction (prediction_service.py:343-437),
Strategy B: base × climate factor × trend factor, truncated by `int(...)`
and floored at 0, then risk-classified; confidence fixed at 0.40. -/
def get_fallback_prediction (temperatura_media : ℚ)
    (casos_semana_anterior casos_2sem_anterior : ℤ) : PredictionOutput :=
  let mr := media_recente casos_semana_anterior casos_2sem_anterior
  let ft := fator_temperatura temperatura_media
  let ftend := fator_tendencia casos_semana_anterior casos_2sem_anterior
  let casos_estimados := max 0 (pyInt (mr * ft * ftend))
  { casos_estimados := casos_estimados
    nivel_risco := classify_risk_level casos_estimados
    confianca := 2/5
    tendencia := tendencia_fallback casos_semana_anterior casos_2sem_anterior
    fonte := "Fallback (heurística baseada em histórico + clima)" }

/-- Model-backed case estimate of `PredictionService.predict`, Strategy A
(prediction_service.py:244-265): `prediction` is the raw model output,
clipped below 0 by `max(0, int(prediction))`, capped at
MAX_CASOS_SEMANAL = 300; when the previous week count is positive the code
blends 70% capped output with 30% previous-week count; finally floored at
MIN_CASOS_SEMANAL = 0. -/
def strategyA_casos_estimados (prediction : ℚ) (casos_semana_anterior : ℤ) : ℤ :=
  let casos_estimados_raw : ℤ := max 0 (pyInt prediction)
  let casos_estimados : ℤ :=
    if 0 < casos_semana_anterior then
      pyInt ((7/10) * ((min casos_estimados_raw 300 : ℤ) : ℚ) +
        (3/10) * (casos_semana_anterior : ℚ))
    else min casos_estimados_raw 300
  max 0 casos_estimados

/-!
MLService (src/backend/app/services/ml_service.py)

`predict_next_week` feeds the last 4 rows through the Keras LSTM (an opaque
trained artifact, modelled below by an oracle `model : List ℚ → ℚ` from the
`casos_est` column of the current window to the denormalized prediction) and
computes a confidence from the coefficient of variation of the last
LOOKBACK_WEEKS = 4 `casos_est` values.  Only the `casos_est` column evolves
across the recursive multi-week loop (the other feature columns are copied
from the last row), so windows are modelled as lists of `casos_est` values.
-/

/-- numpy `mean` of a list (population mean; `0` on the empty list, matching
ℚ division by zero — the service never calls it on an empty window). -/
def npMean (xs : List ℚ) : ℚ := xs.sum / xs.length

/-- numpy `var` with `ddof = 0` (population variance), the square of
`np.std(xs)`. -/
def npVariance (xs : List ℚ) : ℚ :=
  (xs.map (fun x => (x - npMean xs) ^ 2)).sum / xs.length

/-- Characterization of `np.std(xs)`: the nonnegative square root of the
population variance.  `np.std` itself is irrational in general, so the
embedding passes the standard deviation as an oracle `sd : List ℚ → ℚ`
constrained by this predicate on every window the code evaluates it on. -/
def IsNpStd (xs : List ℚ) (s : ℚ) : Prop := 0 ≤ s ∧ s ^ 2 = npVariance xs

/-- Confidence computation of `predict_next_week` (ml_service.py:319-330)
given the standard deviation and mean of the recent `casos_est` values:
coefficient of variation `cv = std/mean` when `mean > 0` (else 1.0), mapped
to `max(0, min(1, 1 - cv/2))`. -/
def confidence_of (sd mean : ℚ) : ℚ :=
  let cv := if 0 < mean then sd / mean else 1
  max 0 (min 1 (1 - cv / 2))

/-- Confidence returned by `predict_next_week` on a window whose `casos_est`
column is `casos` (ml_service.py:321-330): statistics of the trailing
LOOKBACK_WEEKS = 4 entries. -/
def predict_next_week_conf (sd : List ℚ → ℚ) (casos : List ℚ) : ℚ :=
  let recent := lastN 4 casos
  confidence_of (sd recent) (npMean recent)

/-- Predicted cases returned by `predict_next_week` (ml_service.py:311-317):
the denormalized model output, clipped below zero. -/
def predict_next_week_cases (model : List ℚ → ℚ) (casos : List ℚ) : ℚ :=
  max 0 (model casos)

/-- Recursive-window update of `predict_multiple_weeks`
(ml_service.py:378-387): drop the oldest row, append a synthetic row whose
`casos_est` is the new prediction. -/
def roll_window (casos : List ℚ) (cases : ℚ) : List ℚ :=
  casos.drop 1 ++ [cases]

/-- Per-step confidences of `predict_multiple_weeks` on the `casos_est`
column `data` for `weeks_ahead` steps (ml_service.py:347-391).  The source
skips the final window roll (`if week < weeks_ahead - 1`); performing it
unconditionally leaves the returned list unchanged. -/
def predict_multiple_weeks_confs (model sd : List ℚ → ℚ) :
    List ℚ → ℕ → List ℚ
  | _, 0 => []
  | data, n + 1 =>
    predict_next_week_conf sd data ::
      predict_multiple_weeks_confs model sd
        (roll_window data (predict_next_week_cases model data)) n

/-- Windows on which `predict_multiple_weeks` evaluates `np.std` (the
trailing 4 `casos_est` values of each successive window); used to scope the
`IsNpStd` constraint on the standard-deviation oracle. -/
def windows_used (model : List ℚ → ℚ) : List ℚ → ℕ → List (List ℚ)
  | _, 0 => []
  | data, n + 1 =>
    lastN 4 data ::
      windows_used model
        (roll_window data (predict_next_week_cases model data)) n

/-!
Predictions endpoint (src/backend/app/api/v1/endpoints/predictions.py)
-/

/-- Per-step confidence adjustment applied by the endpoint
(predictions.py:329): `conf * 0.95 ** (week_idx - 1)` where `week_idx`
counts steps from 1. -/
def adjusted_confidence (conf : ℚ) (week_idx : ℕ) : ℚ :=
  conf * (19/20) ^ (week_idx - 1)

/-- Endpoint helper `_calculate_confidence_interval`
(predictions.py:112-136): margin `predicted_cases * (1 - confidence) * 0.30`,
lower bound clamped at 0. -/
def calculate_confidence_interval (predicted_cases confidence : ℚ) : ℚ × ℚ :=
  let margin_percentage := (1 - confidence) * (3/10)
  let margin := predicted_cases * margin_percentage
  (max 0 (predicted_cases - margin), predicted_cases + margin)

/-!
DataService (src/backend/app/services/data_service.py)

Rows of the static CSV dataset and of the InfoDengue API responses, reduced
to the fields the resolver inspects: the region geocode (filter key) and
`data_iniSE` (sort key); `casos_est` is carried along as the payload the
downstream model reads.  The `geocodigo` / `municipio_geocodigo` column-name
dispatch of the source is schema plumbing over the same value and is
modelled as a single geocode field.
-/

structure Row where
  geocodigo : ℕ
  data_iniSE : ℤ
  casos_est : ℚ
deriving DecidableEq

/-- Chronological order on rows: comparison of `data_iniSE` values, the key
of every `sort_values("data_iniSE")` in data_service.py. -/
def dateLe (a b : Row) : Prop := a.data_iniSE ≤ b.data_iniSE

instance : DecidableRel dateLe := fun a b => Int.decLe _ _

instance : IsTotal Row dateLe := ⟨fun a b => Int.le_total _ _⟩

instance : IsTrans Row dateLe := ⟨fun _ _ _ => Int.le_trans⟩

/-- pandas `sort_values("data_iniSE")`: a stable sort, ascending by date. -/
def sortByDate (l : List Row) : List Row := List.insertionSort dateLe l

/-- Rows of the dataset belonging to one region
(the geocode filter of data_service.py:301-304). -/
def cityRows (dataset : List Row) (geocode : ℕ) : List Row :=
  dataset.filter (fun r => decide (r.geocodigo = geocode))

/-- Error kinds of data_service.py:75-82. -/
inductive DSError
  | geocodeNotFound
  | dataNotFound
deriving DecidableEq

/-- DataService._get_from_csv (data_service.py:278-329): filter the static
dataset to the region (empty → GeocodeNotFoundError), sort chronologically,
keep the trailing `weeks` rows (fewer than `weeks` → DataNotFoundError). -/
def get_from_csv (dataset : List Row) (geocode : ℕ) (weeks : ℕ) :
    Except DSError (List Row) :=
  let df_city := cityRows dataset geocode
  if df_city = [] then .error .geocodeNotFound
  else
    let df_tail := lastN weeks (sortByDate df_city)
    if df_tail.length < weeks then .error .dataNotFound
    else .ok df_tail

/-- DataService._fetch_from_api (data_service.py:213-276): `apiResult` is
the upstream outcome (`none` for timeout / HTTP error / any exception, the
parsed row list otherwise); an empty body also yields `None`, otherwise the
rows are sorted by date and the trailing `weeks` kept. -/
def fetch_from_api (apiResult : Option (List Row)) (weeks : ℕ) :
    Option (List Row) :=
  match apiResult with
  | none => none
  | some raw => if raw = [] then none else some (lastN weeks (sortByDate raw))

/-- DataService.get_historical_data (data_service.py:331-380): tier 1 the
Redis cache (`cache` is the entry under the `{geocode}:w{weeks}` key, `none`
for a miss, a disabled client, or a swallowed cache-read error), tier 2 the
live API when it supplies at least `weeks` rows, tier 3 the static CSV whose
errors propagate.  Cache writes are side effects that do not change the
returned value and are not modelled. -/
def get_historical_data (cache : Option (List Row))
    (apiResult : Option (List Row)) (dataset : List Row)
    (geocode : ℕ) (weeks : ℕ) : Except DSError (List Row) :=
  match cache with
  | some cached_data => .ok cached_data
  | none =>
    match fetch_from_api apiResult weeks with
    | some api_data =>
      if weeks ≤ api_data.length then .ok api_data
      else get_from_csv dataset geocode weeks
    | none => get_from_csv dataset geocode weeks

/-!
Exceptions that Python code may raise; a function whose embedding returns
`Except PyError α` raises exactly on the `.error` results.
-/

inductive PyError
  | attributeError
deriving DecidableEq

/-!
WeatherService (src/backend/app/services/weather_service.py)
-/

/-- Climate snapshot dict returned by `get_current_weather`
(weather_service.py:163-171): the seven keys every return path fills. -/
structure WeatherData where
  temperatura_atual : ℚ
  temperatura_min : ℚ
  temperatura_max : ℚ
  umidade : ℚ
  descricao : String
  icon : String
  fonte : String
deriving DecidableEq

/-- Fields the happy path reads from the OpenWeather payload
(`data["main"][...]`, `data["weather"][0][...]`). -/
structure OWPayload where
  temp : ℚ
  temp_min : ℚ
  temp_max : ℚ
  humidity : ℚ
  description : String
  icon : String
deriving DecidableEq

/-- Outcome of the upstream OpenWeather call as distinguished by
`get_current_weather` (weather_service.py:131-211): timeout
(httpx.TimeoutException), transport error (httpx.HTTPError), any other
exception, or a response with a status code and a parse result (`none` when
`response.json()` fails or a key is missing — KeyError). -/
inductive OWOutcome
  | timeout
  | httpError
  | otherError
  | response (status : ℕ) (payload : Option OWPayload)
deriving DecidableEq

/-- WeatherService._get_fallback_weather (weather_service.py:267-287): the
fixed default snapshot tagged as fallback. -/
def get_fallback_weather : WeatherData :=
  { temperatura_atual := 25
    temperatura_min := 20
    temperatura_max := 30
    umidade := 70
    descricao := "Dados indisponíveis (usando média histórica)"
    icon := "01d"
    fonte := "Fallback (API indisponível)" }

/-- State of the Smart-Grid cache check of `get_current_weather`
(weather_service.py:115-129): a hit deserializing to a snapshot, a miss, a
disconnected client, or a raised-and-swallowed cache error (including a
`json.loads` failure on the cached blob). -/
inductive OWCache
  | hit (w : WeatherData)
  | miss
  | disconnected
  | cacheError
deriving DecidableEq

/-- Cache consultation of `get_current_weather`: only an enabled, connected
cache with a deserializable hit short-circuits; every other state falls
through to the upstream call. -/
def weather_cache_lookup (use_cache : Bool) (cc : OWCache) :
    Option WeatherData :=
  if use_cache then
    match cc with
    | .hit w => some w
    | _ => none
  else none

/-- WeatherService.get_current_weather (weather_service.py:78-211).
`save_ok` records whether the cache save at the end of the happy path
succeeds; its failure is caught and cannot change the returned value.
Status 401, 429 and any other non-200 status return the fallback snapshot;
so do timeout, transport errors, payload parse failures (KeyError) and any
other exception.  No branch raises, hence no `.error` result. -/
def get_current_weather (use_cache : Bool) (cc : OWCache)
    (outcome : OWOutcome) (save_ok : Bool) : Except PyError WeatherData :=
  match weather_cache_lookup use_cache cc with
  | some w => .ok w
  | none =>
    match outcome with
    | .timeout => .ok get_fallback_weather
    | .httpError => .ok get_fallback_weather
    | .otherError => .ok get_fallback_weather
    | .response status payload =>
      if status = 401 then .ok get_fallback_weather
      else if status = 429 then .ok get_fallback_weather
      else if status ≠ 200 then .ok get_fallback_weather
      else
        match payload with
        | none => .ok get_fallback_weather
        | some data =>
          let _ := save_ok
          .ok { temperatura_atual := data.temp
                temperatura_min := data.temp_min
                temperatura_max := data.temp_max
                umidade := data.humidity
                descricao := data.description
                icon := data.icon
                fonte := "OpenWeatherMap" }

/-- Failure modes of the upstream weather call: everything except a 200
response with a well-formed payload. -/
def weather_upstream_failed : OWOutcome → Prop
  | .timeout => True
  | .httpError => True
  | .otherError => True
  | .response status payload => status ≠ 200 ∨ payload = none

/-!
InfoDengueService (src/backend/app/services/infodengue_service.py)

Dates are modelled as integer day numbers (the source only formats them to
strings); `today` is the `datetime.now()` day.  `random.uniform` draws are
supplied by an oracle `rng : ℕ → ℕ → ℚ` (row index, draw slot within the
row), in the order the source draws them.
-/

/-- Raw InfoDengue API row as consumed through `week_data.get(key, default)`
(infodengue_service.py:210-242): every field may be absent. -/
structure IDRaw where
  se : Option ℤ
  data_iniSE : Option ℤ
  casos : Option ℤ
  nivel : Option ℤ
  casos_est : Option ℚ
  incidencia : Option ℚ
  tempmin : Option ℚ
  tempmax : Option ℚ
  umidmin : Option ℚ
  umidmax : Option ℚ
deriving DecidableEq

/-- Formatted entry produced by `_parse_infodengue_response` and
`_generate_fallback_data`. -/
structure IDEntry where
  data : ℤ
  casos : ℤ
  casos_estimados : ℚ
  nivel_alerta : ℤ
  incidencia : ℚ
  temperatura_min : ℚ
  temperatura_max : ℚ
  temperatura_media : ℚ
  umidade_min : ℚ
  umidade_max : ℚ
  umidade_media : ℚ
  semana_epidemiologica : ℤ
  fonte : String
deriving DecidableEq

/-- Day number of a Unix millisecond timestamp
(`datetime.fromtimestamp(ts/1000)` then `strftime` of the calendar date). -/
def dayOfMs (ts : ℤ) : ℤ := ts / 86400000

/-- InfoDengueService._generate_fallback_data
(infodengue_service.py:255-299): `weeks` synthetic rows, one per week back
from `today`, cases `max(0, int(15 * uniform(0.7, 1.3)))` (slot 0 of the
random oracle), climate fields drawn from slots 1-6. -/
def generate_fallback_data (today : ℤ) (weeks : ℕ) (rng : ℕ → ℕ → ℚ) :
    List IDEntry :=
  (List.range weeks).map (fun i =>
    let casos : ℤ := max 0 (pyInt (15 * rng i 0))
    { data := today - 7 * ((weeks : ℤ) - i - 1)
      casos := casos
      casos_estimados := (casos : ℚ)
      nivel_alerta := 1
      incidencia := pyRound 2 ((casos : ℚ) / 10)
      temperatura_min := pyRound 1 (rng i 1)
      temperatura_max := pyRound 1 (rng i 2)
      temperatura_media := pyRound 1 (rng i 3)
      umidade_min := pyRound 1 (rng i 4)
      umidade_max := pyRound 1 (rng i 5)
      umidade_media := pyRound 1 (rng i 6)
      semana_epidemiologica := 0
      fonte := "Estimativa (InfoDengue indisponível)" })

/-- Per-row formatting step of `_parse_infodengue_response`
(infodengue_service.py:210-243): `.get` defaults applied, temperatures and
humidities averaged from min/max, a zero or missing `data_iniSE` replaced by
`today`. -/
def format_id_row (today : ℤ) (w : IDRaw) : IDEntry :=
  let timestamp_ms := w.data_iniSE.getD 0
  { data := if timestamp_ms ≠ 0 then dayOfMs timestamp_ms else today
    casos := w.casos.getD 0
    casos_estimados := pyRound 1 (w.casos_est.getD 0)
    nivel_alerta := w.nivel.getD 1
    incidencia := pyRound 2 (w.incidencia.getD 0)
    temperatura_min := pyRound 1 (w.tempmin.getD 20)
    temperatura_max := pyRound 1 (w.tempmax.getD 30)
    temperatura_media := pyRound 1 ((w.tempmin.getD 20 + w.tempmax.getD 30) / 2)
    umidade_min := pyRound 1 (w.umidmin.getD 40)
    umidade_max := pyRound 1 (w.umidmax.getD 80)
    umidade_media := pyRound 1 ((w.umidmin.getD 40 + w.umidmax.getD 80) / 2)
    semana_epidemiologica := w.se.getD 0
    fonte := "InfoDengue" }

/-- Descending order by epidemiological week used by
`sorted(raw_data, key=lambda x: x.get("SE", 0), reverse=True)`. -/
def seDesc (a b : IDRaw) : Prop := b.se.getD 0 ≤ a.se.getD 0

instance : DecidableRel seDesc := fun a b => Int.decLe _ _

/-- InfoDengueService._parse_infodengue_response
(infodengue_service.py:174-253): sort descending by SE, keep at most
`max_weeks` rows, format each, pad with synthetic fallback rows when short,
and truncate to exactly `max_weeks`. -/
def parse_infodengue_response (today : ℤ) (raw_data : List IDRaw)
    (max_weeks : ℕ) (rng : ℕ → ℕ → ℚ) : List IDEntry :=
  let sorted_data := (List.insertionSort seDesc raw_data).take max_weeks
  let formatted := sorted_data.map (format_id_row today)
  let padded :=
    if formatted.length < max_weeks then
      formatted ++ generate_fallback_data today (max_weeks - formatted.length) rng
    else formatted
  padded.take max_weeks

/-- Outcome of the InfoDengue upstream call as distinguished by
`get_historical_data` (infodengue_service.py:117-172): httpx.HTTPError
(which `raise_for_status` and timeouts produce), any other exception, or a
parsed JSON row list (possibly empty). -/
inductive IDUpstream
  | httpError
  | otherError
  | ok (raw : List IDRaw)

/-- InfoDengueService.get_historical_data (infodengue_service.py:50-172).
When `use_cache` is true the code first runs
`await cache_service.get(cache_key)` — but CacheService
(src/backend/app/services/cache_service.py) defines no method named `get`
(only `get_dashboard_data` / `set_dashboard_data` / `delete` / `exists` /
`get_ttl`), so attribute lookup raises AttributeError, outside every
try/except of the function; no cache-content parameter exists because the
lookup raises before any read.  With `use_cache` false: upstream failure or
an empty body yields `weeks` synthetic fallback rows, otherwise the parsed
(padded, truncated) rows.  The cache save of step 5 is skipped when
`use_cache` is false. -/
def infodengue_get_historical_data (use_cache : Bool) (today : ℤ)
    (upstream : IDUpstream) (weeks : ℕ) (rng : ℕ → ℕ → ℚ) :
    Except PyError (List IDEntry) :=
  if use_cache then .error .attributeError
  else
    match upstream with
    | .httpError => .ok (generate_fallback_data today weeks rng)
    | .otherError => .ok (generate_fallback_data today weeks rng)
    | .ok raw_data =>
      if raw_data = [] then .ok (generate_fallback_data today weeks rng)
      else .ok (parse_infodengue_response today raw_data weeks rng)

/-- Standard-deviation oracle of the C2 counterexample: both windows the
run evaluates have population variance 9/4, so their `np.std` is 3/2. -/
def cexSd : List ℚ → ℚ := fun _ => 3/2

/-- Model oracle of the C2 counterexample: predicts 4 cases on the window
[0, 4, 1, 1]. -/
def cexModel : List ℚ → ℚ := fun w => if w = [0, 4, 1, 1] then 4 else 0

/-!
Theorems
-/

/-- Claim C5: on previous-week count 45, two-weeks-ago count 38 and mean
temperature 27 °C, the heuristic strategy computes base mean(45,38) = 41.5,
climate multiplier 1.3, trend multiplier 1.0 (growth 18.4% is below the 20%
threshold), and returns estimate floor(41.5 × 1.3 × 1.0) = 53 with risk
level moderate. -/
theorem fallback_example_scenario :
    media_recente 45 38 = 83/2 ∧
    fator_temperatura 27 = 13/10 ∧
    fator_tendencia 45 38 = 1 ∧
    (get_fallback_prediction 27 45 38).casos_estimados = 53 ∧
    (get_fallback_prediction 27 45 38).nivel_risco = "moderado" := by
  have hmr : media_recente 45 38 = 83/2 := by norm_num [media_recente]
  have hft : fator_temperatura 27 = 13/10 := by norm_num [fator_temperatura]
  have htd : fator_tendencia 45 38 = 1 := by norm_num [fator_tendencia]
  have hfloor : (⌊(1079/20 : ℚ)⌋ : ℤ) = 53 := by
    rw [Int.floor_eq_iff]
    constructor <;> norm_num
  have hcasos : (get_fallback_prediction 27 45 38).casos_estimados = 53 := by
    simp only [get_fallback_prediction, hmr, hft, htd]
    rw [show (83/2 * (13/10) * 1 : ℚ) = 1079/20 by norm_num]
    rw [pyInt, if_neg (by norm_num : ¬ (1079/20 : ℚ) < 0), hfloor]
    norm_num
  refine ⟨hmr, hft, htd, hcasos, ?_⟩
  have hnr : (get_fallback_prediction 27 45 38).nivel_risco =
      classify_risk_level ((get_fallback_prediction 27 45 38).casos_estimados) :=
    rfl
  rw [hnr, hcasos]
  norm_num [classify_risk_level]

/-- Claim C6: the heuristic climate multiplier is exactly the piecewise step
function of the mean temperature t with value 1.3 on 25 ≤ t ≤ 30, 1.1 for
t > 30, 1.0 for 20 ≤ t < 25 and 0.7 for t < 20, for every temperature. -/
theorem fator_temperatura_step (t : ℚ) :
    (25 ≤ t ∧ t ≤ 30 → fator_temperatura t = 13/10) ∧
    (30 < t → fator_temperatura t = 11/10) ∧
    (20 ≤ t ∧ t < 25 → fator_temperatura t = 1) ∧
    (t < 20 → fator_temperatura t = 7/10) := by
  unfold fator_temperatura
  refine ⟨fun h => ?_, fun h => ?_, fun h => ?_, fun h => ?_⟩
  · rw [if_pos h]
  · rw [if_neg (fun hc => absurd hc.2 (not_le.mpr h)), if_pos h]
  · rw [if_neg (fun hc => absurd hc.1 (not_le.mpr h.2)),
      if_neg (not_lt.mpr (by linarith [h.2])), if_pos h.1]
  · rw [if_neg (fun hc => absurd hc.1 (not_le.mpr (by linarith))),
      if_neg (not_lt.mpr (by linarith)), if_neg (not_le.mpr h)]

/-- Witness for C6: one temperature in each band. -/
theorem fator_temperatura_step_witness :
    fator_temperatura 27 = 13/10 ∧ fator_temperatura 31 = 11/10 ∧
    fator_temperatura 22 = 1 ∧ fator_temperatura 15 = 7/10 :=
  ⟨(fator_temperatura_step 27).1 (by norm_num),
   (fator_temperatura_step 31).2.1 (by norm_num),
   (fator_temperatura_step 22).2.2.1 (by norm_num),
   (fator_temperatura_step 15).2.2.2 (by norm_num)⟩

/-- Claim C7: risk classification maps every estimate into the four ordered
bands with upper-exclusive breakpoints (c < 50 baixo, 50 ≤ c < 150
moderado, 150 ≤ c < 300 alto, 300 ≤ c muito_alto), and is monotone: a
larger estimate never lowers the rank of the category. -/
theorem classify_risk_level_bands (c : ℤ) :
    (c < 50 → classify_risk_level c = "baixo") ∧
    (50 ≤ c → c < 150 → classify_risk_level c = "moderado") ∧
    (150 ≤ c → c < 300 → classify_risk_level c = "alto") ∧
    (300 ≤ c → classify_risk_level c = "muito_alto") ∧
    (∀ c2 : ℤ, c ≤ c2 →
      riskRank (classify_risk_level c) ≤ riskRank (classify_risk_level c2)) := by
  refine ⟨fun h => ?_, fun h1 h2 => ?_, fun h1 h2 => ?_, fun h => ?_,
    fun c2 hle => ?_⟩ <;>
    unfold classify_risk_level <;>
    split_ifs <;> first | rfl | decide | (exfalso; omega)

/-- Witness for C7: one estimate per band and one monotonicity instance. -/
theorem classify_risk_level_bands_witness :
    classify_risk_level 10 = "baixo" ∧
    classify_risk_level 53 = "moderado" ∧
    classify_risk_level 200 = "alto" ∧
    classify_risk_level 300 = "muito_alto" ∧
    riskRank (classify_risk_level 53) ≤ riskRank (classify_risk_level 200) :=
  ⟨(classify_risk_level_bands 10).1 (by norm_num),
   (classify_risk_level_bands 53).2.1 (by norm_num) (by norm_num),
   (classify_risk_level_bands 200).2.2.1 (by norm_num) (by norm_num),
   (classify_risk_level_bands 300).2.2.2.1 (by norm_num),
   (classify_risk_level_bands 53).2.2.2.2 200 (by norm_num)⟩

/-- Claim C10: for predicted cases p ≥ 0 and confidence c ∈ [0, 1] the
confidence interval has margin p·(1−c)·0.30 on each side (lower bound
additionally clamped at 0) and satisfies 0 ≤ lower ≤ p ≤ upper. -/
theorem confidence_interval_bounds (p c : ℚ) (hp : 0 ≤ p) (hc0 : 0 ≤ c)
    (hc1 : c ≤ 1) :
    (calculate_confidence_interval p c).1 =
      max 0 (p - p * ((1 - c) * (3/10))) ∧
    (calculate_confidence_interval p c).2 = p + p * ((1 - c) * (3/10)) ∧
    0 ≤ (calculate_confidence_interval p c).1 ∧
    (calculate_confidence_interval p c).1 ≤ p ∧
    p ≤ (calculate_confidence_interval p c).2 := by
  have hm : 0 ≤ p * ((1 - c) * (3/10)) := by
    have : (0:ℚ) ≤ 1 - c := by linarith
    positivity
  refine ⟨rfl, rfl, le_max_left _ _, max_le hp (by linarith), by
    simp only [calculate_confidence_interval]
    linarith⟩

/-- Witness for C10 at p = 10, c = 1/2. -/
theorem confidence_interval_bounds_witness :
    (calculate_confidence_interval 10 (1/2)).1 =
      max 0 (10 - 10 * ((1 - 1/2) * (3/10))) ∧
    (calculate_confidence_interval 10 (1/2)).2 =
      10 + 10 * ((1 - 1/2) * (3/10)) ∧
    0 ≤ (calculate_confidence_interval 10 (1/2)).1 ∧
    (calculate_confidence_interval 10 (1/2)).1 ≤ 10 ∧
    10 ≤ (calculate_confidence_interval 10 (1/2)).2 :=
  confidence_interval_bounds 10 (1/2) (by norm_num) (by norm_num) (by norm_num)

/-- Counterexample to claim C1 as stated: with raw model output 500 and
previous-week count 1000 (non-negative), the blended Strategy A estimate is
int(0.7·300 + 0.3·1000) = 510 > 300, so the hard cap does not hold for
every non-negative previous-week count. -/
theorem strategyA_cap_cex :
    ¬ (∀ (prediction : ℚ) (casos_semana_anterior : ℤ),
        0 ≤ casos_semana_anterior →
        0 ≤ strategyA_casos_estimados prediction casos_semana_anterior ∧
        strategyA_casos_estimados prediction casos_semana_anterior ≤ 300) := by
  intro h
  have h1 : pyInt (500:ℚ) = 500 := by
    rw [pyInt, if_neg (by norm_num : ¬ (500:ℚ) < 0)]; simp
  have h510 : strategyA_casos_estimados 500 1000 = 510 := by
    simp only [strategyA_casos_estimados]
    rw [if_pos (by norm_num : (0:ℤ) < 1000), h1]
    have h2 : (max (0:ℤ) 500) ⊓ 300 = 300 := by decide
    rw [h2]
    have h3 : ((7:ℚ)/10 * ((300:ℤ):ℚ) + (3:ℚ)/10 * ((1000:ℤ):ℚ)) = 510 := by
      push_cast; norm_num
    rw [h3]
    have h4 : pyInt (510:ℚ) = 510 := by
      rw [pyInt, if_neg (by norm_num : ¬ (510:ℚ) < 0)]; simp
    rw [h4]
    decide
  exact absurd ((h 500 1000 (by norm_num)).2) (by rw [h510]; norm_num)

/-- Claim C1 amended: the Strategy A estimate is always ≥ 0, and it is
≤ 300 provided the previous-week case count is itself ≤ 300 (the 70/30
blend lets a previous-week count above the cap push the estimate past
300). -/
theorem strategyA_cap_amended (prediction : ℚ) (casos_semana_anterior : ℤ)
    (hprev : 0 ≤ casos_semana_anterior) :
    0 ≤ strategyA_casos_estimados prediction casos_semana_anterior ∧
    (casos_semana_anterior ≤ 300 →
      strategyA_casos_estimados prediction casos_semana_anterior ≤ 300) := by
  simp only [strategyA_casos_estimados]
  refine ⟨le_max_left _ _, fun h300 => ?_⟩
  by_cases hp : 0 < casos_semana_anterior
  · rw [if_pos hp]
    set m : ℤ := min (max 0 (pyInt prediction)) 300 with hm
    have hm0 : (0:ℤ) ≤ m := le_min (le_max_left _ _) (by norm_num)
    have hm300 : m ≤ 300 := min_le_right _ _
    set q : ℚ := (7/10) * (m : ℚ) + (3/10) * (casos_semana_anterior : ℚ)
      with hq
    have hq0 : 0 ≤ q := by
      have h1 : (0:ℚ) ≤ (m : ℚ) := by exact_mod_cast hm0
      have h2 : (0:ℚ) ≤ (casos_semana_anterior : ℚ) := by exact_mod_cast hprev
      rw [hq]; positivity
    have hq300 : q ≤ 300 := by
      have h1 : (m : ℚ) ≤ 300 := by exact_mod_cast hm300
      have h2 : (casos_semana_anterior : ℚ) ≤ 300 := by exact_mod_cast h300
      rw [hq]; linarith
    have hpy : pyInt q = ⌊q⌋ := if_neg (not_lt.mpr hq0)
    have hfl : ⌊q⌋ ≤ 300 := by
      have := Int.floor_le_floor (α := ℚ) hq300
      simpa using this
    rw [hpy] at *
    exact max_le (by norm_num) hfl
  · rw [if_neg hp]
    exact max_le (by norm_num) (le_trans (min_le_right _ _) (by norm_num))

/-- Witness for the amended C1 at raw output 500 and previous-week count
100. -/
theorem strategyA_cap_witness :
    0 ≤ strategyA_casos_estimados 500 100 ∧
    strategyA_casos_estimados 500 100 ≤ 300 :=
  ⟨(strategyA_cap_amended 500 100 (by decide)).1,
   (strategyA_cap_amended 500 100 (by decide)).2 (by decide)⟩

/-- Every per-step confidence produced by `predict_multiple_weeks` is
nonnegative (each is clamped by `max(0, ...)`), as is the out-of-range
default of `getD`. -/
theorem predict_multiple_weeks_confs_nonneg (model sd : List ℚ → ℚ) :
    ∀ (data : List ℚ) (H j : ℕ),
      0 ≤ (predict_multiple_weeks_confs model sd data H).getD j 0 := by
  intro data H
  induction H generalizing data with
  | zero => intro j; simp [predict_multiple_weeks_confs]
  | succ n ih =>
    intro j
    cases j with
    | zero =>
      simp only [predict_multiple_weeks_confs, List.getD_cons_zero]
      exact le_max_left _ _
    | succ k =>
      simp only [predict_multiple_weeks_confs, List.getD_cons_succ]
      exact ih _ k

/-- Counterexample to claim C2 as stated: on the history window
[0, 4, 1, 1] (population variance 9/4, so np.std = 3/2) with a model that
predicts 4 cases, the second window is [4, 1, 1, 4] (variance again 9/4):
step-1 confidence is 1/2 (cv = 1) but step-2 confidence is 7/10 (cv = 3/5),
and 7/10 · 0.95 = 0.665 > 0.5, so the endpoint-adjusted confidence
increases from step 1 to step 2. -/
theorem multi_week_conf_cex :
    ¬ (∀ (model sd : List ℚ → ℚ) (data : List ℚ) (H j : ℕ),
        (∀ w ∈ windows_used model data H, IsNpStd w (sd w)) → j + 1 < H →
        adjusted_confidence
            ((predict_multiple_weeks_confs model sd data H).getD (j + 1) 0)
            (j + 2) ≤
          adjusted_confidence
            ((predict_multiple_weeks_confs model sd data H).getD j 0)
            (j + 1)) := by
  intro h
  have h2 := h cexModel cexSd [0, 4, 1, 1] 2 0 ?hstd (by omega)
  case hstd =>
    intro w hw
    simp only [windows_used, cexModel, cexSd, roll_window,
      predict_next_week_cases, lastN] at hw ⊢
    norm_num at hw
    rcases hw with hw | hw <;> subst hw <;>
      refine ⟨by norm_num, ?_⟩ <;> norm_num [npVariance, npMean]
  revert h2
  norm_num [predict_multiple_weeks_confs, predict_next_week_conf,
    predict_next_week_cases, confidence_of, roll_window, lastN, npMean,
    adjusted_confidence, cexModel, cexSd]

/-- Claim C2 amended: the endpoint-adjusted confidences (per-step
confidence times 0.95^(step−1)) are non-increasing in the step index
provided the per-step confidences returned by `predict_multiple_weeks` are
themselves non-increasing; the geometric decay alone does not enforce this,
since the per-step confidence is recomputed from each rolled window. -/
theorem multi_week_conf_amended (model sd : List ℚ → ℚ) (data : List ℚ)
    (H j : ℕ)
    (hstd : ∀ w ∈ windows_used model data H, IsNpStd w (sd w))
    (hj : j + 1 < H)
    (hmono : (predict_multiple_weeks_confs model sd data H).getD (j + 1) 0 ≤
      (predict_multiple_weeks_confs model sd data H).getD j 0) :
    adjusted_confidence
        ((predict_multiple_weeks_confs model sd data H).getD (j + 1) 0)
        (j + 2) ≤
      adjusted_confidence
        ((predict_multiple_weeks_confs model sd data H).getD j 0)
        (j + 1) := by
  have h0 : 0 ≤ (predict_multiple_weeks_confs model sd data H).getD (j + 1) 0 :=
    predict_multiple_weeks_confs_nonneg model sd data H (j + 1)
  unfold adjusted_confidence
  simp only [Nat.add_sub_cancel]
  set c : ℚ := (predict_multiple_weeks_confs model sd data H).getD j 0
  set c' : ℚ := (predict_multiple_weeks_confs model sd data H).getD (j + 1) 0
  have hq : (0:ℚ) ≤ (19/20) ^ j := by positivity
  calc c' * (19/20) ^ (j + 1) = c' * ((19/20) ^ j * (19/20)) := by
        rw [pow_succ]
    _ ≤ c' * ((19/20) ^ j * 1) := by
        have : ((19:ℚ)/20) ^ j * (19/20) ≤ (19/20) ^ j * 1 := by
          apply mul_le_mul_of_nonneg_left _ hq
          norm_num
        exact mul_le_mul_of_nonneg_left this h0
    _ = c' * (19/20) ^ j := by ring
    _ ≤ c * (19/20) ^ j := mul_le_mul_of_nonneg_right hmono hq

/-- Witness for the amended C2: a degenerate run (empty history, model
output 0) whose two per-step confidences are both 1/2. -/
theorem multi_week_conf_witness :
    adjusted_confidence
        ((predict_multiple_weeks_confs (fun _ => 0) (fun _ => 0) [] 2).getD 1 0)
        2 ≤
      adjusted_confidence
        ((predict_multiple_weeks_confs (fun _ => 0) (fun _ => 0) [] 2).getD 0 0)
        1 :=
  multi_week_conf_amended (fun _ => 0) (fun _ => 0) [] 2 0
    (by
      intro w hw
      simp only [windows_used, roll_window, predict_next_week_cases,
        lastN] at hw
      norm_num at hw
      rcases hw with hw | hw <;> subst hw <;>
        exact ⟨le_refl 0, by norm_num [npVariance, npMean]⟩)
    (by omega)
    (by norm_num [predict_multiple_weeks_confs, predict_next_week_conf,
      predict_next_week_cases, confidence_of, roll_window, lastN, npMean])

/-- Claim C8: `get_current_weather` never raises — for every cache state,
every upstream outcome (timeout, transport error, 401, 429, any non-200
status, malformed payload, any other exception) and every cache-save
outcome it returns a complete snapshot, and whenever the request path is
reached and the upstream call fails it returns exactly the fixed fallback
snapshot. -/
theorem weather_never_raises (use_cache : Bool) (cc : OWCache)
    (outcome : OWOutcome) (save_ok : Bool) :
    (∃ w, get_current_weather use_cache cc outcome save_ok = .ok w) ∧
    (weather_cache_lookup use_cache cc = none → weather_upstream_failed outcome →
      get_current_weather use_cache cc outcome save_ok =
        .ok get_fallback_weather) := by
  constructor
  · unfold get_current_weather
    cases hcl : weather_cache_lookup use_cache cc with
    | some w => exact ⟨w, rfl⟩
    | none =>
      cases outcome with
      | timeout => exact ⟨_, rfl⟩
      | httpError => exact ⟨_, rfl⟩
      | otherError => exact ⟨_, rfl⟩
      | response status payload =>
        dsimp only
        cases payload <;> split_ifs <;> exact ⟨_, rfl⟩
  · intro hcl hfail
    unfold get_current_weather
    rw [hcl]
    cases outcome with
    | timeout => rfl
    | httpError => rfl
    | otherError => rfl
    | response status payload =>
      unfold weather_upstream_failed at hfail
      dsimp only
      rcases hfail with hs | hp
      · split_ifs <;> rfl
      · subst hp
        split_ifs <;> rfl

/-- Witness for C8: a cache miss followed by an upstream timeout yields the
fallback snapshot. -/
theorem weather_never_raises_witness :
    get_current_weather false .miss .timeout true = .ok get_fallback_weather :=
  (weather_never_raises false .miss .timeout true).2 rfl trivial

/-- Length of a trailing slice: `tail(n)` keeps `min n (length)` rows. -/
theorem lastN_length (n : ℕ) (l : List α) : (lastN n l).length = min n l.length := by
  simp only [lastN, List.length_drop]
  omega

/-- Sorting preserves the row count. -/
theorem sortByDate_length (l : List Row) : (sortByDate l).length = l.length :=
  (List.perm_insertionSort dateLe l).length_eq

/-- The sort produced by `sort_values("data_iniSE")` is chronologically
ascending. -/
theorem sortByDate_sorted (l : List Row) : List.Sorted dateLe (sortByDate l) :=
  List.sorted_insertionSort dateLe l

/-- A trailing slice of the sorted rows is still chronologically ascending. -/
theorem lastN_sortByDate_sorted (n : ℕ) (l : List Row) :
    List.Sorted dateLe (lastN n (sortByDate l)) :=
  List.Pairwise.sublist (List.drop_sublist _ _) (sortByDate_sorted l)

/-- The CSV tier returns exactly `weeks` chronologically sorted rows
whenever the region appears in the static dataset with at least `weeks`
rows. -/
theorem get_from_csv_ok (dataset : List Row) (geocode weeks : ℕ)
    (hw : 0 < weeks) (hlen : weeks ≤ (cityRows dataset geocode).length) :
    ∃ r, get_from_csv dataset geocode weeks = .ok r ∧ r.length = weeks ∧
      List.Sorted dateLe r := by
  unfold get_from_csv
  have hne : cityRows dataset geocode ≠ [] := by
    intro h
    rw [h] at hlen
    simp at hlen
    omega
  rw [if_neg hne]
  have hlen2 : (lastN weeks (sortByDate (cityRows dataset geocode))).length
      = weeks := by
    rw [lastN_length, sortByDate_length]
    omega
  rw [if_neg (by omega : ¬ (lastN weeks
    (sortByDate (cityRows dataset geocode))).length < weeks)]
  exact ⟨_, rfl, hlen2, lastN_sortByDate_sorted _ _⟩

/-- When the live API supplies fewer than `weeks` rows (or fails), the
resolver falls through to the CSV tier. -/
theorem api_insufficient_falls_through (apiResult : Option (List Row))
    (dataset : List Row) (geocode weeks : ℕ)
    (hapi : ∀ l, apiResult = some l → l.length < weeks) :
    get_historical_data none apiResult dataset geocode weeks =
      get_from_csv dataset geocode weeks := by
  cases apiResult with
  | none => rfl
  | some raw =>
    have hlt := hapi raw rfl
    unfold get_historical_data fetch_from_api
    by_cases hr : raw = []
    · simp only [if_pos hr]
    · have hcond : ¬ weeks ≤ (lastN weeks (sortByDate raw)).length := by
        rw [lastN_length, sortByDate_length]
        omega
      simp only [if_neg hr, if_neg hcond]

/-- Claim C3: for every region present in some source with at least `weeks`
periods (an entry in the per-(region, weeks) cache — which, by the write
discipline of `get_historical_data`, holds a previously returned window —
a live-API response with at least `weeks` rows, or at least `weeks` static
CSV rows), the resolver returns exactly `weeks` observations in ascending
chronological order, whichever tier satisfies the request. -/
theorem get_historical_data_window (cache apiResult : Option (List Row))
    (dataset : List Row) (geocode weeks : ℕ) (hw : 0 < weeks)
    (hcache : ∀ c, cache = some c → c.length = weeks ∧ List.Sorted dateLe c)
    (hpresent : cache.isSome ∨ (∃ l, apiResult = some l ∧ weeks ≤ l.length) ∨
      weeks ≤ (cityRows dataset geocode).length) :
    ∃ r, get_historical_data cache apiResult dataset geocode weeks = .ok r ∧
      r.length = weeks ∧ List.Sorted dateLe r := by
  cases cache with
  | some c =>
    obtain ⟨h1, h2⟩ := hcache c rfl
    exact ⟨c, rfl, h1, h2⟩
  | none =>
    rcases hpresent with hs | ⟨l, hl, hlen⟩ | hcsv
    · simp at hs
    · subst hl
      have hne : l ≠ [] := by
        intro h
        subst h
        simp at hlen
        omega
      have hlen2 : (lastN weeks (sortByDate l)).length = weeks := by
        rw [lastN_length, sortByDate_length]
        omega
      unfold get_historical_data fetch_from_api
      simp only [if_neg hne, if_pos (le_of_eq hlen2.symm)]
      exact ⟨_, rfl, hlen2, lastN_sortByDate_sorted _ _⟩
    · cases hfa : fetch_from_api apiResult weeks with
      | none =>
        have hfall : get_historical_data none apiResult dataset geocode weeks =
            get_from_csv dataset geocode weeks := by
          unfold get_historical_data
          simp only [hfa]
        rw [hfall]
        exact get_from_csv_ok dataset geocode weeks hw hcsv
      | some api_data =>
        obtain ⟨raw, hraw, hne, hdata⟩ :
            ∃ raw, apiResult = some raw ∧ raw ≠ [] ∧
              api_data = lastN weeks (sortByDate raw) := by
          cases apiResult with
          | none => exact absurd hfa (by simp [fetch_from_api])
          | some raw =>
            unfold fetch_from_api at hfa
            by_cases hr : raw = []
            · simp only [if_pos hr] at hfa
              exact absurd hfa (by simp)
            · simp only [if_neg hr, Option.some.injEq] at hfa
              exact ⟨raw, rfl, hr, hfa.symm⟩
        by_cases hge : weeks ≤ api_data.length
        · have hlen2 : api_data.length = weeks := by
            rw [hdata, lastN_length, sortByDate_length] at hge ⊢
            omega
          have hres : get_historical_data none apiResult dataset geocode weeks =
              .ok api_data := by
            unfold get_historical_data
            simp only [hfa, if_pos hge]
          rw [hres]
          exact ⟨api_data, rfl, hlen2, hdata ▸ lastN_sortByDate_sorted _ _⟩
        · have hres : get_historical_data none apiResult dataset geocode weeks =
              get_from_csv dataset geocode weeks := by
            unfold get_historical_data
            simp only [hfa, if_neg hge]
          rw [hres]
          exact get_from_csv_ok dataset geocode weeks hw hcsv

/-- Witness for C3: a one-row dataset resolved from the CSV tier. -/
theorem get_historical_data_window_witness :
    ∃ r, get_historical_data none none [⟨4106902, 5, 2⟩] 4106902 1 = .ok r ∧
      r.length = 1 ∧ List.Sorted dateLe r :=
  get_historical_data_window none none [⟨4106902, 5, 2⟩] 4106902 1
    (by norm_num) (fun c h => by cases h)
    (Or.inr (Or.inr (by norm_num [cityRows])))

/-- Claim C4: with a cache miss and an insufficient live API, the static
tier raises GeocodeNotFoundError for a region absent from the dataset and
DataNotFoundError for a region present with fewer than `weeks` rows; the
two error kinds are distinct, and both are returned as the resolver result (they
propagate to the caller). -/
theorem get_historical_data_error_kinds (apiResult : Option (List Row))
    (dataset : List Row) (geocode weeks : ℕ)
    (hapi : ∀ l, apiResult = some l → l.length < weeks) :
    (cityRows dataset geocode = [] →
      get_historical_data none apiResult dataset geocode weeks =
        .error .geocodeNotFound) ∧
    (cityRows dataset geocode ≠ [] →
      (cityRows dataset geocode).length < weeks →
      get_historical_data none apiResult dataset geocode weeks =
        .error .dataNotFound) ∧
    DSError.geocodeNotFound ≠ DSError.dataNotFound := by
  rw [api_insufficient_falls_through apiResult dataset geocode weeks hapi]
  refine ⟨fun habs => ?_, fun hne hshort => ?_, by decide⟩
  · unfold get_from_csv
    rw [if_pos habs]
  · unfold get_from_csv
    rw [if_neg hne]
    dsimp only
    rw [if_pos]
    rw [lastN_length, sortByDate_length]
    omega

/-- Witness for C4: an empty dataset (region absent) and a one-row dataset
queried for 4 weeks (region present, history too short). -/
theorem get_historical_data_error_kinds_witness :
    get_historical_data none none [] 4106902 4 = .error .geocodeNotFound ∧
    get_historical_data none none [⟨4106902, 5, 2⟩] 4106902 4 =
      .error .dataNotFound :=
  ⟨(get_historical_data_error_kinds none [] 4106902 4
      (fun l h => by cases h)).1 rfl,
   (get_historical_data_error_kinds none [⟨4106902, 5, 2⟩] 4106902 4
      (fun l h => by cases h)).2.1
      (by norm_num [cityRows]) (by norm_num [cityRows])⟩

/-- The synthetic fallback generator returns exactly `weeks` rows. -/
theorem generate_fallback_data_length (today : ℤ) (weeks : ℕ)
    (rng : ℕ → ℕ → ℚ) :
    (generate_fallback_data today weeks rng).length = weeks := by
  simp [generate_fallback_data]

/-- The parse-and-pad step returns exactly `max_weeks` rows: at most
`max_weeks` upstream rows are kept, a shortfall is padded with synthetic
rows, and the result is truncated to `max_weeks`. -/
theorem parse_infodengue_response_length (today : ℤ) (raw_data : List IDRaw)
    (max_weeks : ℕ) (rng : ℕ → ℕ → ℚ) :
    (parse_infodengue_response today raw_data max_weeks rng).length =
      max_weeks := by
  simp only [parse_infodengue_response]
  split_ifs with h <;>
    simp_all [List.length_take, List.length_append,
      generate_fallback_data_length, List.length_map]

/-- Claim C9 (code bug): with `use_cache = True` — the default, and the way
the dashboard calls it — `get_historical_data` raises AttributeError for
every input, because `cache_service.get` does not exist on CacheService;
with `use_cache = False` it indeed never raises and always returns exactly
`weeks` entries (synthetic fallback rows on upstream failure or an empty
body, parsed-and-padded rows otherwise). -/
theorem infodengue_get_historical_data_behavior :
    (∀ (today : ℤ) (upstream : IDUpstream) (weeks : ℕ) (rng : ℕ → ℕ → ℚ),
      infodengue_get_historical_data true today upstream weeks rng =
        .error .attributeError) ∧
    (∀ (today : ℤ) (upstream : IDUpstream) (weeks : ℕ) (rng : ℕ → ℕ → ℚ),
      ∃ l, infodengue_get_historical_data false today upstream weeks rng =
        .ok l ∧ l.length = weeks) := by
  constructor
  · intro today upstream weeks rng
    rfl
  · intro today upstream weeks rng
    unfold infodengue_get_historical_data
    cases upstream with
    | httpError =>
      exact ⟨_, rfl, generate_fallback_data_length today weeks rng⟩
    | otherError =>
      exact ⟨_, rfl, generate_fallback_data_length today weeks rng⟩
    | ok raw_data =>
      by_cases hr : raw_data = []
      · simp only [if_pos hr, if_neg (Bool.false_ne_true)]
        exact ⟨_, rfl, generate_fallback_data_length today weeks rng⟩
      · simp only [if_neg hr, if_neg (Bool.false_ne_true)]
        exact ⟨_, rfl,
          parse_infodengue_response_length today raw_data weeks rng⟩

end Dengo
